import Mathlib

/-!
Shallow embedding of the ElevenPage Reader playback core
(src/background/service-worker.js, lib/elevenlabs-api.js, and the
position-mapper part of src/content/text-parser.js), together with
theorems settling the specification claims about it.

JavaScript numbers are modelled by `JSNum` (NaN, the two infinities, and
finite values as rationals) with IEEE comparison semantics; dynamically
typed message-payload values by `JSVal`.  The service worker's module
level mutable variables (`playbackState`, `audioContext`, `preloadState`)
and the "most recent broadcast" of the state-change protocol are gathered
in a `World` record; every handler is translated as a pure function from
`World` (plus an `Env` describing the outcomes of the external effects:
storage reads, content-script text fetches, speech synthesis, offscreen
document creation) to `World`.
-/

namespace ElevenPage

/-- A JavaScript number: NaN, +Infinity, -Infinity, or a finite value
(modelled as a rational). -/
inductive JSNum where
  | nan
  | posInf
  | negInf
  | fin (q : ℚ)
deriving DecidableEq

/-- IEEE `<` on JS numbers: every comparison involving NaN is false. -/
def JSNum.lt : JSNum → JSNum → Bool
  | .nan, _ => false
  | _, .nan => false
  | .negInf, .negInf => false
  | .negInf, .posInf => true
  | .negInf, .fin _ => true
  | .posInf, _ => false
  | .fin _, .negInf => false
  | .fin _, .posInf => true
  | .fin a, .fin b => decide (a < b)

/-- IEEE `>` on JS numbers. -/
def JSNum.gt (a b : JSNum) : Bool := JSNum.lt b a

/-- A dynamically typed JavaScript value, as far as the handlers
inspect one: a number, a string, a boolean, null, undefined, or some
other object (array, plain object, ...). -/
inductive JSVal where
  | num (n : JSNum)
  | str (s : String)
  | bool (b : Bool)
  | null
  | undefined
  | obj
deriving DecidableEq

/-- JavaScript `String.prototype.trim`: strip leading and trailing
whitespace (modelled over the character list so that it computes by
kernel reduction). -/
def jsTrim (s : String) : String :=
  ⟨(((s.data.dropWhile Char.isWhitespace).reverse.dropWhile Char.isWhitespace).reverse)⟩

/-- `PlaybackStatus` enum of the service worker. -/
inductive Status where
  | idle
  | loading
  | playing
  | paused
  | error
deriving DecidableEq

/-- The `playbackState` record of the service worker.  `speed` is a raw
JS number because `handleSetSpeed` stores whatever passed its check
(which NaN does).  The integer-valued fields are modelled as integers. -/
structure PlaybackState where
  status : Status
  currentParagraphIndex : ℤ
  currentSentenceIndex : ℤ
  currentWordIndex : ℤ
  currentTime : ℚ
  speed : JSNum
  error : Option String
  autoContinue : Bool
  totalParagraphs : ℤ
deriving DecidableEq

/-- Initial `playbackState` (module initialisation). -/
def initialPlaybackState : PlaybackState :=
  { status := .idle
    currentParagraphIndex := 0
    currentSentenceIndex := 0
    currentWordIndex := 0
    currentTime := 0
    speed := .fin 1
    error := none
    autoContinue := true
    totalParagraphs := 0 }

/-- The `preloadState` record: audio and alignment payloads are opaque
tokens (naturals); `pending` records whether `pendingRequest` is
non-null. -/
structure PreloadSlot where
  paragraphIndex : Option ℤ
  audioData : Option ℕ
  alignmentData : Option ℕ
  pending : Bool
deriving DecidableEq

/-- The cleared preload slot, as produced by `clearPreloadState`. -/
def emptyPreload : PreloadSlot :=
  { paragraphIndex := none, audioData := none, alignmentData := none, pending := false }

/-- The service worker's mutable module state plus the state snapshot
carried by the most recent `broadcastStateChange` (none before the first
broadcast).  `tabId`/`audioLoaded` model `audioContext.tabId` and
whether `audioContext.audioData` is non-null. -/
structure World where
  playback : PlaybackState
  preload : PreloadSlot
  tabId : Option ℤ
  audioLoaded : Bool
  lastBroadcast : Option PlaybackState
deriving DecidableEq

/-- The initial world: fresh module state, no broadcast sent yet. -/
def initialWorld : World :=
  { playback := initialPlaybackState
    preload := emptyPreload
    tabId := none
    audioLoaded := false
    lastBroadcast := none }

/-- Outcomes of the external effects a handler awaits: storage reads
(API key, voice id), the content script's `GET_NEXT_PARAGRAPH` response
(`none` for a failed or error response, `some t` for a success response
carrying text `t`), speech synthesis per text, whether offscreen-document
creation succeeds, and the eventual result of an in-flight preload
request that is awaited (`some audio` if it fills the slot). -/
structure Env where
  apiKey : Option String
  voiceId : Option String
  fetchText : ℤ → Option String
  synth : String → Except String ℕ
  offscreenOk : Bool
  pendingResult : Option ℕ

/-- `getPlaybackState()`: a copy of the current state (what `getState`
returns). -/
def getPlaybackState (w : World) : PlaybackState := w.playback

/-- `updatePlaybackState(updates)`: apply the partial update, then
broadcast the new snapshot. -/
def updatePlaybackState (w : World) (f : PlaybackState → PlaybackState) : World :=
  let p := f w.playback
  { w with playback := p, lastBroadcast := some p }

/-- `clearPreloadState()`: abort any in-flight request and reset the
slot. -/
def clearPreloadState (w : World) : World :=
  { w with preload := emptyPreload }

/-- `preloadAudio(text, paragraphIndex)` as observed after the await in
`initiatePreload`: reads key and voice from storage (throwing, hence --
caught by the caller -- clearing the slot, when either is missing),
synthesises, and on success stores audio and alignment in the slot if
the slot is still tagged with this paragraph; on synthesis failure the
slot is cleared (by `preloadAudio` itself when the tag matches, and by
`initiatePreload`'s catch in any case). -/
def preloadAudioRun (env : Env) (w : World) (text : String) (paragraphIndex : ℤ) : World :=
  match env.apiKey, env.voiceId with
  | some _, some _ =>
    match env.synth text with
    | .ok audio =>
      if w.preload.paragraphIndex = some paragraphIndex then
        { w with preload :=
          { paragraphIndex := some paragraphIndex
            audioData := some audio
            alignmentData := some audio
            pending := false } }
      else w
    | .error _ => clearPreloadState w
  | _, _ => clearPreloadState w

/-- `initiatePreload(currentParagraphIndex)`: guard conditions, then a
text fetch for the next paragraph (a failed or empty response clears the
slot) followed by `preloadAudio`. -/
def initiatePreload (env : Env) (w : World) (currentParagraphIndex : ℤ) : World :=
  let nextIndex := currentParagraphIndex + 1
  if ¬ w.playback.autoContinue ∨ w.playback.totalParagraphs ≤ nextIndex then w
  else if w.preload.paragraphIndex = some nextIndex then w
  else if w.tabId = none then w
  else
    let w1 := clearPreloadState w
    let w2 := { w1 with preload := { emptyPreload with paragraphIndex := some nextIndex } }
    match env.fetchText nextIndex with
    | none => clearPreloadState w2
    | some text =>
      if text = "" then clearPreloadState w2
      else preloadAudioRun env w2 text nextIndex

/-- `handleStop()`: unload audio, clear the preload slot, reset the
state to idle, and broadcast.  Always reports success. -/
def handleStop (w : World) : World × Bool :=
  let w1 := { w with audioLoaded := false }
  let w2 := clearPreloadState w1
  (updatePlaybackState w2 (fun p =>
    { p with
      status := .idle
      currentParagraphIndex := 0
      currentSentenceIndex := 0
      currentWordIndex := 0
      currentTime := 0
      error := none }), true)

/-- `handleSetSpeed(payload)`: the source checks
`typeof speed !== 'number' || speed < 0.5 || speed > 3.0` and otherwise
persists the value and applies it via `updatePlaybackState` (position
untouched). -/
def handleSetSpeed (w : World) (speed : JSVal) : World × Bool :=
  match speed with
  | .num n =>
    if n.lt (.fin (1/2)) ∨ n.gt (.fin 3) then (w, false)
    else (updatePlaybackState w (fun p => { p with speed := n }), true)
  | _ => (w, false)

/-- `handleSetTotalParagraphs(payload)`: validates non-negativity and
mutates `playbackState.totalParagraphs` directly, without broadcasting
("no need to broadcast for this internal state"). -/
def handleSetTotalParagraphs (w : World) (totalParagraphs : ℤ) : World × Bool :=
  if totalParagraphs < 0 then (w, false)
  else ({ w with playback := { w.playback with totalParagraphs := totalParagraphs } }, true)

/-- The `timeUpdate` branch of `handleOffscreenMessage`: mutates
`playbackState.currentTime` directly and sends only a highlight update,
not a state broadcast. -/
def handleTimeUpdate (w : World) (currentTime : ℚ) : World :=
  { w with playback := { w.playback with currentTime := currentTime } }

/-- `handlePlay(payload)`.  Returns the new world and the `success`
flag.  Mirrors the source's order: playing check, paused-resume check,
storage reads, text check, loading update, `audioContext.tabId`
assignment, synthesis (failure caught: status `error`), offscreen
document creation (failure caught by the same catch), playing update,
and finally `initiatePreload`. -/
def handlePlay (env : Env) (w : World) (tabId : Option ℤ) (text : String)
    (paragraphIndex : ℤ) : World × Bool :=
  if w.playback.status = .playing then (w, false)
  else if w.playback.status = .paused ∧ w.audioLoaded then
    (updatePlaybackState w (fun p => { p with status := .playing }), true)
  else if env.apiKey = none then (w, false)
  else if env.voiceId = none then (w, false)
  else if jsTrim text = "" then (w, false)
  else
    let w1 := updatePlaybackState w (fun p =>
      { p with
        status := .loading
        currentParagraphIndex := paragraphIndex
        currentSentenceIndex := 0
        currentWordIndex := 0
        currentTime := 0
        error := none })
    let w2 := { w1 with tabId := tabId }
    match env.synth text with
    | .error msg =>
      (updatePlaybackState w2 (fun p => { p with status := .error, error := some msg }), false)
    | .ok _ =>
      let w3 := { w2 with audioLoaded := true }
      if env.offscreenOk then
        let w4 := updatePlaybackState w3 (fun p => { p with status := .playing })
        (initiatePreload env w4 paragraphIndex, true)
      else
        (updatePlaybackState w3 (fun p =>
          { p with status := .error, error := some "offscreen" }), false)

/-- `handleJumpToParagraph(payload)`: clear the preload slot, stop, then
play the requested paragraph. -/
def handleJumpToParagraph (env : Env) (w : World) (tabId : Option ℤ) (text : String)
    (paragraphIndex : ℤ) : World × Bool :=
  let w1 := clearPreloadState w
  let w2 := (handleStop w1).1
  handlePlay env w2 tabId text paragraphIndex

/-- `requestNextParagraph(paragraphIndex)`: with no active tab, stop;
otherwise ask the content script for the text (a thrown message error,
a failed response, and an empty text all lead to `handleStop`) and hand
it to `handlePlay`. -/
def requestNextParagraph (env : Env) (w : World) (paragraphIndex : ℤ) : World :=
  match w.tabId with
  | none => (handleStop w).1
  | some t =>
    match env.fetchText paragraphIndex with
    | none => (handleStop w).1
    | some text =>
      if text = "" then (handleStop w).1
      else (handlePlay env w (some t) text paragraphIndex).1

/-- `playPreloadedAudio(paragraphIndex)`: move the cached audio into the
active context, clear the slot, broadcast the playing state, and (after
offscreen-document creation succeeds) kick off the next preload. -/
def playPreloadedAudio (env : Env) (w : World) (paragraphIndex : ℤ) : World :=
  let w1 := { w with audioLoaded := true }
  let w2 := clearPreloadState w1
  let w3 := updatePlaybackState w2 (fun p =>
    { p with
      status := .playing
      currentParagraphIndex := paragraphIndex
      currentSentenceIndex := 0
      currentWordIndex := 0
      currentTime := 0 })
  if env.offscreenOk then initiatePreload env w3 paragraphIndex else w3

/-- `handleAudioEnded()`: clear the finished audio; if auto-continue is
off or the last paragraph just ended, clear the preload slot and stop;
otherwise consume the preload slot (cached hit, pending hit, or miss
falling back to an on-demand load). -/
def handleAudioEnded (env : Env) (w : World) : World :=
  let w0 := { w with audioLoaded := false }
  if ¬ w0.playback.autoContinue ∨
      w0.playback.totalParagraphs - 1 ≤ w0.playback.currentParagraphIndex then
    (handleStop (clearPreloadState w0)).1
  else
    let nextIndex := w0.playback.currentParagraphIndex + 1
    if w0.preload.paragraphIndex = some nextIndex ∧ w0.preload.audioData.isSome then
      playPreloadedAudio env w0 nextIndex
    else if w0.preload.paragraphIndex = some nextIndex ∧ w0.preload.pending then
      let w1 := updatePlaybackState w0 (fun p => { p with status := .loading })
      match env.pendingResult with
      | some audio =>
        playPreloadedAudio env
          { w1 with preload := { w1.preload with audioData := some audio, pending := false } }
          nextIndex
      | none => requestNextParagraph env (clearPreloadState w1) nextIndex
    else
      let w1 := updatePlaybackState w0 (fun p => { p with status := .loading })
      requestNextParagraph env w1 nextIndex

/-- `handleGetState()`: the pull-based state query. -/
def handleGetState (w : World) : PlaybackState := getPlaybackState w

/-! ### Position mapper (HighlightManager in src/content/text-parser.js) -/

/-- Character-level timing alignment: parallel `characters` and
`character_start_times_seconds` arrays, with
`character_end_times_seconds` possibly absent. -/
structure Alignment where
  characters : List Char
  characterStartTimes : List ℚ
  characterEndTimes : Option (List ℚ)

/-- Effective end time of character `i` in `_findPositionFromTimestamp`:
the end-times entry when present, otherwise the next start time, or the
own start plus 0.1 s for the last character. -/
def charEndTime (a : Alignment) (i : ℕ) (startTime : ℚ) : ℚ :=
  match a.characterEndTimes with
  | some es => es.getD i 0
  | none =>
    if i + 1 < a.characterStartTimes.length then a.characterStartTimes.getD (i + 1) 0
    else startTime + 1/10

/-- The scan loop of `_findPositionFromTimestamp`: first `i` with
`startTime[i] <= t < endTime[i]`; structured as a walk down the
start-times list carrying the current index `i`. -/
def findCharIndexAux (t : ℚ) (a : Alignment) : List ℚ → ℕ → Option ℕ
  | [], _ => none
  | st :: rest, i =>
    let en := charEndTime a i st
    if st ≤ t ∧ t < en then some i
    else findCharIndexAux t a rest (i + 1)

/-- Character lookup of `_findPositionFromTimestamp`, including the
clamp to the last character when `t` is at or beyond the last start
time (the source uses `characters.length - 1` there). -/
def findCharIndex (t : ℚ) (a : Alignment) : Option ℤ :=
  match findCharIndexAux t a a.characterStartTimes 0 with
  | some i => some (i : ℤ)
  | none =>
    match a.characterStartTimes.getLast? with
    | some lastStart =>
      if lastStart ≤ t then some ((a.characters.length : ℤ) - 1) else none
    | none => none

/-- Parsed content as the mapper consumes it: paragraphs, each a list of
sentences, each a list of word texts. -/
abbrev ParsedContent := List (List (List String))

/-- Inner word loop of `_mapCharIndexToWordPosition`: returns the word
index containing `charIndex`, or the updated running character count
(each word consumes its length plus one separator). -/
def wordsWalk (charIndex : ℤ) : List String → ℕ → ℤ → Option ℕ × ℤ
  | [], _, count => (none, count)
  | word :: rest, wIdx, count =>
    let wordEnd := count + (word.length : ℤ)
    if count ≤ charIndex ∧ charIndex < wordEnd then (some wIdx, count)
    else wordsWalk charIndex rest (wIdx + 1) (wordEnd + 1)

/-- Sentence loop of `_mapCharIndexToWordPosition`. -/
def sentencesWalk (charIndex : ℤ) : List (List String) → ℕ → ℤ → Option (ℕ × ℕ) × ℤ
  | [], _, count => (none, count)
  | s :: rest, sIdx, count =>
    match wordsWalk charIndex s 0 count with
    | (some wIdx, _) => (some (sIdx, wIdx), count)
    | (none, count1) => sentencesWalk charIndex rest (sIdx + 1) count1

/-- Paragraph loop of `_mapCharIndexToWordPosition`: each paragraph
contributes one extra separator character after its words. -/
def paragraphsWalk (charIndex : ℤ) : ParsedContent → ℕ → ℤ → Option (ℕ × ℕ × ℕ)
  | [], _, _ => none
  | p :: rest, pIdx, count =>
    match sentencesWalk charIndex p 0 count with
    | (some (sIdx, wIdx), _) => some (pIdx, sIdx, wIdx)
    | (none, count1) => paragraphsWalk charIndex rest (pIdx + 1) (count1 + 1)

/-- `_mapCharIndexToWordPosition(charIndex, characters, paragraphOffset)`:
walk the virtual character stream starting at paragraph
`paragraphOffset` with a running count of 0. -/
def mapCharIndexToWordPosition (parsed : ParsedContent) (charIndex : ℤ)
    (paragraphOffset : ℕ) : Option (ℕ × ℕ × ℕ) :=
  paragraphsWalk charIndex (parsed.drop paragraphOffset) paragraphOffset 0

/-- `_findPositionFromTimestamp(currentTime, alignmentData, paragraphOffset)`. -/
def findPositionFromTimestamp (parsed : ParsedContent) (currentTime : ℚ)
    (a : Alignment) (paragraphOffset : ℕ) : Option (ℕ × ℕ × ℕ) :=
  match findCharIndex currentTime a with
  | none => none
  | some ci => mapCharIndexToWordPosition parsed ci paragraphOffset

/-! ### ElevenLabs API client (lib/elevenlabs-api.js) -/

/-- `API_ERROR_TYPES` of the API client. -/
inductive APIErrorType where
  | invalidApiKey
  | rateLimited
  | networkError
  | invalidVoice
  | generationFailed
  | unknown
deriving DecidableEq

/-- `isValidApiKeyFormat(apiKey)`: a string whose trim is non-empty. -/
def isValidApiKeyFormat : JSVal → Bool
  | .str s => decide (0 < (jsTrim s).length)
  | _ => false

/-- Whether a JS value is a string that is non-empty after trimming
(the text and voice-id checks of `textToSpeech`). -/
def isNonEmptyTrimmedString : JSVal → Bool
  | .str s => decide (0 < (jsTrim s).length)
  | _ => false

/-- `textToSpeech(apiKey, text, voiceId)` up to the network call:
returns whether the network was reached and the overall outcome
(`net` being the network-path outcome).  All three validations run
before any fetch. -/
def textToSpeech (net : Except APIErrorType ℕ) (apiKey text voiceId : JSVal) :
    Bool × Except APIErrorType ℕ :=
  if ¬ isValidApiKeyFormat apiKey then (false, .error .invalidApiKey)
  else if ¬ isNonEmptyTrimmedString text then (false, .error .generationFailed)
  else if ¬ isNonEmptyTrimmedString voiceId then (false, .error .invalidVoice)
  else (true, net)

/-- `getVoices(apiKey)` up to the network call. -/
def getVoices (net : Except APIErrorType ℕ) (apiKey : JSVal) :
    Bool × Except APIErrorType ℕ :=
  if ¬ isValidApiKeyFormat apiKey then (false, .error .invalidApiKey)
  else (true, net)

/-! ### Concrete fixtures used by counterexamples and witnesses -/

/-- Environment where every external step succeeds. -/
def envAllOk : Env :=
  { apiKey := some "key"
    voiceId := some "voice"
    fetchText := fun _ => some "next paragraph text"
    synth := fun _ => .ok 7
    offscreenOk := true
    pendingResult := none }

/-- Environment where speech synthesis fails. -/
def envSynthFails : Env :=
  { envAllOk with synth := fun _ => .error "boom" }

/-- Environment where the content-script text fetch fails. -/
def envFetchFails : Env :=
  { envAllOk with fetchText := fun _ => none }

/-- A world in the middle of playing paragraph 0 of a 2-paragraph page,
auto-continue on, no preload cached. -/
def playingWorld : World :=
  { playback :=
      { initialPlaybackState with
        status := .playing
        currentParagraphIndex := 0
        totalParagraphs := 2 }
    preload := emptyPreload
    tabId := some 1
    audioLoaded := true
    lastBroadcast := none }

/-- A world playing paragraph 1 of a 10-paragraph page with paragraph 2
already preloaded. -/
def preloadedWorld : World :=
  { playback :=
      { initialPlaybackState with
        status := .playing
        currentParagraphIndex := 1
        totalParagraphs := 10 }
    preload :=
      { paragraphIndex := some 2
        audioData := some 5
        alignmentData := some 5
        pending := false }
    tabId := some 1
    audioLoaded := true
    lastBroadcast := none }

/-- Alignment for the text "Hi there." with 0.1-second character
spacing and no end times. -/
def alignmentHiThere : Alignment :=
  { characters := ['H', 'i', ' ', 't', 'h', 'e', 'r', 'e', '.']
    characterStartTimes := [0, 1/10, 2/10, 3/10, 4/10, 5/10, 6/10, 7/10, 8/10]
    characterEndTimes := none }

/-! ### Helper lemmas -/

/-- `initiatePreload` never touches the playback state. -/
theorem initiatePreload_playback (env : Env) (w : World) (i : ℤ) :
    (initiatePreload env w i).playback = w.playback := by
  unfold initiatePreload preloadAudioRun clearPreloadState
  dsimp only
  repeat' split <;> try rfl

/-- `initiatePreload` never broadcasts. -/
theorem initiatePreload_lastBroadcast (env : Env) (w : World) (i : ℤ) :
    (initiatePreload env w i).lastBroadcast = w.lastBroadcast := by
  unfold initiatePreload preloadAudioRun clearPreloadState
  dsimp only
  repeat' split <;> try rfl

/-- After `initiatePreload env w i` the slot tag is the old tag, unset,
or `i + 1`. -/
theorem initiatePreload_paragraphIndex (env : Env) (w : World) (i : ℤ) :
    (initiatePreload env w i).preload.paragraphIndex = w.preload.paragraphIndex ∨
    (initiatePreload env w i).preload.paragraphIndex = none ∨
    (initiatePreload env w i).preload.paragraphIndex = some (i + 1) := by
  unfold initiatePreload preloadAudioRun clearPreloadState
  dsimp only
  repeat' split
  all_goals simp [emptyPreload]

/-! ### Claim theorems -/

/-- C5: querying elapsed time 0.35 over the "Hi there." alignment with
paragraph offset 0, against parsed content whose only paragraph is the
single sentence with words "Hi" and "there.", yields paragraph 0,
sentence 0, word 1. -/
theorem positionMapperExample :
    findPositionFromTimestamp [[["Hi", "there."]]] (35/100) alignmentHiThere 0 =
      some (0, 0, 1) := by
  norm_num [findPositionFromTimestamp, findCharIndex, findCharIndexAux, charEndTime,
    alignmentHiThere]
  decide

/-- C10: stop always succeeds, resets the status to idle, the three
position indices and the elapsed time to 0 and the error to null,
clears the preload slot, and preserves speed, auto-continue, and total
paragraphs -- in particular also when called while already idle. -/
theorem stopFrame (w : World) :
    (handleStop w).2 = true ∧
    (handleStop w).1.playback =
      { status := .idle
        currentParagraphIndex := 0
        currentSentenceIndex := 0
        currentWordIndex := 0
        currentTime := 0
        speed := w.playback.speed
        error := none
        autoContinue := w.playback.autoContinue
        totalParagraphs := w.playback.totalParagraphs } ∧
    (handleStop w).1.preload = emptyPreload :=
  ⟨rfl, rfl, rfl⟩

/-- C9: a valid speed change (finite speed between 0.5 and 3.0) succeeds
and changes the speed field and nothing else of the playback state:
status, elapsed time, and the paragraph, sentence, and word indices are
untouched. -/
theorem setSpeedFrame (w : World) (q : ℚ) (h1 : 1/2 ≤ q) (h2 : q ≤ 3) :
    (handleSetSpeed w (.num (.fin q))).2 = true ∧
    (handleSetSpeed w (.num (.fin q))).1.playback =
      { w.playback with speed := .fin q } := by
  have hcond : ¬ (JSNum.lt (.fin q) (.fin (1/2)) = true ∨ JSNum.gt (.fin q) (.fin 3) = true) := by
    simp only [JSNum.lt, JSNum.gt, decide_eq_true_eq, not_or, not_lt]
    constructor <;> linarith
  simp only [handleSetSpeed, if_neg hcond, updatePlaybackState]
  exact ⟨trivial, trivial⟩

/-- Witness for C9 at speed 2 from the playing world. -/
theorem setSpeedFrameWitness :
    (handleSetSpeed playingWorld (.num (.fin 2))).2 = true ∧
    (handleSetSpeed playingWorld (.num (.fin 2))).1.playback =
      { playingWorld.playback with speed := .fin 2 } :=
  setSpeedFrame playingWorld 2 (by norm_num) (by norm_num)

/-- C8: a synthesis or voice-listing call whose API key is empty,
whitespace-only, null, or not a string rejects with the
INVALID_API_KEY error type before the network is reached (first
component false), whatever the network would have returned. -/
theorem apiKeyPrevalidation (net : Except APIErrorType ℕ) (apiKey text voiceId : JSVal)
    (h : (∃ s, apiKey = .str s ∧ jsTrim s = "") ∨ apiKey = .null ∨ ∀ s, apiKey ≠ .str s) :
    textToSpeech net apiKey text voiceId = (false, .error .invalidApiKey) ∧
    getVoices net apiKey = (false, .error .invalidApiKey) := by
  have hval : isValidApiKeyFormat apiKey = false := by
    rcases h with ⟨s, rfl, hs⟩ | rfl | hns
    · simp [isValidApiKeyFormat, hs]
    · rfl
    · cases apiKey with
      | str s => exact absurd rfl (hns s)
      | num n => rfl
      | bool b => rfl
      | null => rfl
      | undefined => rfl
      | obj => rfl
  constructor
  · simp [textToSpeech, hval]
  · simp [getVoices, hval]

/-- Witness for C8: a whitespace-only key. -/
theorem apiKeyPrevalidationWitness :
    textToSpeech (.ok 0) (.str "  ") (.str "hello") (.str "voice") =
      (false, .error .invalidApiKey) ∧
    getVoices (.ok 0) (.str "  ") = (false, .error .invalidApiKey) :=
  apiKeyPrevalidation (.ok 0) (.str "  ") (.str "hello") (.str "voice")
    (Or.inl ⟨"  ", rfl, by decide⟩)

/-- C4 counterexample: `setSpeed(NaN)` is accepted -- the success flag
is true and the stored speed becomes NaN -- refuting the claim that every
non-finite input is rejected with success = false and the state left
unchanged. -/
theorem setSpeedAcceptsNaN :
    (handleSetSpeed initialWorld (.num .nan)).2 = true ∧
    (handleSetSpeed initialWorld (.num .nan)).1.playback.speed = .nan := by
  constructor <;> rfl

/-- C4 amended: `setSpeed` succeeds exactly on number inputs that are
NaN or finite within [0.5, 3.0]; infinities and non-numbers are
rejected, and every rejected call leaves the world (in particular the
playback state) unchanged. -/
theorem setSpeedValidationAmended (w : World) (v : JSVal) :
    ((handleSetSpeed w v).2 = true ↔
      (v = .num .nan ∨ ∃ q : ℚ, v = .num (.fin q) ∧ 1/2 ≤ q ∧ q ≤ 3)) ∧
    ((handleSetSpeed w v).2 = false → handleSetSpeed w v = (w, false)) := by
  cases v with
  | num n =>
    cases n with
    | nan => simp [handleSetSpeed, JSNum.lt, JSNum.gt, updatePlaybackState]
    | posInf => simp [handleSetSpeed, JSNum.lt, JSNum.gt]
    | negInf => simp [handleSetSpeed, JSNum.lt, JSNum.gt]
    | fin q =>
      by_cases hq : (1:ℚ)/2 ≤ q ∧ q ≤ 3
      · have hcond : ¬ (JSNum.lt (.fin q) (.fin (1/2)) = true ∨
            JSNum.gt (.fin q) (.fin 3) = true) := by
          simp only [JSNum.lt, JSNum.gt, decide_eq_true_eq, not_or, not_lt]
          exact ⟨hq.1, hq.2⟩
        have hs : handleSetSpeed w (.num (.fin q)) =
            (updatePlaybackState w (fun p => { p with speed := .fin q }), true) := by
          simp only [handleSetSpeed, if_neg hcond]
        rw [hs]
        refine ⟨iff_of_true rfl (Or.inr ⟨q, rfl, hq.1, hq.2⟩), fun hf => Bool.noConfusion hf⟩
      · have hcond : JSNum.lt (.fin q) (.fin (1/2)) = true ∨
            JSNum.gt (.fin q) (.fin 3) = true := by
          simp only [JSNum.lt, JSNum.gt, decide_eq_true_eq]
          rcases not_and_or.mp hq with hlo | hhi
          · exact Or.inl (lt_of_not_le hlo)
          · exact Or.inr (lt_of_not_le hhi)
        have hs : handleSetSpeed w (.num (.fin q)) = (w, false) := by
          simp only [handleSetSpeed, if_pos hcond]
        rw [hs]
        refine ⟨iff_of_false (fun hf => Bool.noConfusion hf) ?_, fun _ => rfl⟩
        rintro (habs | ⟨q1, hq1, hlo, hhi⟩)
        · simp at habs
        · have hqq : q = q1 := by
            simp at hq1
            exact hq1
          exact hq ⟨hqq ▸ hlo, hqq ▸ hhi⟩
  | str s => simp [handleSetSpeed]
  | bool b => simp [handleSetSpeed]
  | null => simp [handleSetSpeed]
  | undefined => simp [handleSetSpeed]
  | obj => simp [handleSetSpeed]

/-- Witness for C4 amended: speed 2 is accepted; a string input is
rejected with the world unchanged. -/
theorem setSpeedValidationAmendedWitness :
    (handleSetSpeed initialWorld (.num (.fin 2))).2 = true ∧
    handleSetSpeed initialWorld (.str "fast") = (initialWorld, false) :=
  ⟨(setSpeedValidationAmended initialWorld (.num (.fin 2))).1.mpr
      (Or.inr ⟨2, rfl, by norm_num, by norm_num⟩),
   (setSpeedValidationAmended initialWorld (.str "fast")).2 rfl⟩
/-- C1 counterexample: after `stop` (which broadcasts) followed by
`setTotalParagraphs(5)` (which succeeds but mutates without
broadcasting), the pulled state differs from the state carried in the
most recent broadcast. -/
theorem pushPullDivergence :
    (handleSetTotalParagraphs (handleStop initialWorld).1 5).2 = true ∧
    (handleSetTotalParagraphs (handleStop initialWorld).1 5).1.lastBroadcast.isSome = true ∧
    (handleSetTotalParagraphs (handleStop initialWorld).1 5).1.lastBroadcast ≠
      some (handleGetState (handleSetTotalParagraphs (handleStop initialWorld).1 5).1) := by
  refine ⟨rfl, rfl, ?_⟩
  decide

/-- C1 amended: every mutation that goes through
`updatePlaybackState` re-establishes that the pulled state equals the
snapshot in the most recent broadcast; but `setTotalParagraphs` and the
elapsed-time update from the audio sink mutate the state directly
without broadcasting, so after them the pulled state can differ from
the most recent broadcast. -/
theorem pushPullEquivalenceAmended :
    (∀ (w : World) (f : PlaybackState → PlaybackState),
      (updatePlaybackState w f).lastBroadcast =
        some (handleGetState (updatePlaybackState w f))) ∧
    (∀ (w : World) (n : ℤ), 0 ≤ n →
      (handleSetTotalParagraphs w n).2 = true ∧
      (handleSetTotalParagraphs w n).1.lastBroadcast = w.lastBroadcast ∧
      handleGetState (handleSetTotalParagraphs w n).1 =
        { w.playback with totalParagraphs := n }) ∧
    (∀ (w : World) (t : ℚ),
      (handleTimeUpdate w t).lastBroadcast = w.lastBroadcast ∧
      handleGetState (handleTimeUpdate w t) = { w.playback with currentTime := t }) := by
  refine ⟨fun w f => rfl, fun w n hn => ?_, fun w t => ⟨rfl, rfl⟩⟩
  have hcond : ¬ n < 0 := not_lt.mpr hn
  simp only [handleSetTotalParagraphs, if_neg hcond, handleGetState, getPlaybackState]
  exact ⟨trivial, trivial, trivial⟩

/-- Witness for C1 amended at a concrete world and count. -/
theorem pushPullEquivalenceAmendedWitness :
    (updatePlaybackState playingWorld id).lastBroadcast =
      some (handleGetState (updatePlaybackState playingWorld id)) ∧
    (handleSetTotalParagraphs playingWorld 5).2 = true ∧
    (handleSetTotalParagraphs playingWorld 5).1.lastBroadcast = playingWorld.lastBroadcast :=
  ⟨pushPullEquivalenceAmended.1 playingWorld id,
   (pushPullEquivalenceAmended.2.1 playingWorld 5 (by norm_num)).1,
   (pushPullEquivalenceAmended.2.1 playingWorld 5 (by norm_num)).2.1⟩
/-- Specialisation of the slot-tag lemma to a world whose slot is
untagged. -/
theorem initiatePreload_paragraphIndex_none (env : Env) (w : World) (i : ℤ)
    (h : w.preload.paragraphIndex = none) :
    (initiatePreload env w i).preload.paragraphIndex = none ∨
    (initiatePreload env w i).preload.paragraphIndex = some (i + 1) := by
  rcases initiatePreload_paragraphIndex env w i with h1 | h1 | h1
  · exact Or.inl (h1.trans h)
  · exact Or.inl h1
  · exact Or.inr h1

/-- C3 counterexample: with paragraph 2 preloaded while paragraph 1
plays, a completed jump to paragraph 5 leaves the preload slot tagged
with paragraph 6 (a fresh preload started by the jump's play), not
empty as claimed. -/
theorem jumpRestartsPreload :
    (handleJumpToParagraph envAllOk preloadedWorld (some 1) "hello" 5).1.preload.paragraphIndex =
      some 6 := rfl

/-- C3 amended: a completed `jumpToParagraph(m, text)` never leaves the
old preload slot behind: the slot is either empty or freshly tagged with
`m + 1` by the preload the new playback initiates.  (The old tag `k + 1`
can therefore survive only when `m = k`.) -/
theorem jumpPreloadInvalidationAmended (env : Env) (w : World) (tabId : Option ℤ)
    (text : String) (m : ℤ) :
    (handleJumpToParagraph env w tabId text m).1.preload.paragraphIndex = none ∨
    (handleJumpToParagraph env w tabId text m).1.preload.paragraphIndex = some (m + 1) := by
  unfold handleJumpToParagraph handlePlay handleStop clearPreloadState updatePlaybackState
  dsimp only
  repeat' split
  all_goals try (left; rfl)
  all_goals exact initiatePreload_paragraphIndex_none _ _ _ rfl

/-- A world playing the last paragraph (index 1 of 2). -/
def lastParagraphWorld : World :=
  { playingWorld with
    playback := { playingWorld.playback with currentParagraphIndex := 1 } }

/-- C6: when audio ends with auto-continue disabled or with the current
paragraph at or past the last index, the orchestrator clears the
preload slot and ends idle (with the paragraph index reset), never
loading a next paragraph; and with auto-continue disabled
`initiatePreload` is a no-op, so no preload is ever started. -/
theorem autoContinueTermination (env : Env) (w : World)
    (h : w.playback.autoContinue = false ∨
      w.playback.totalParagraphs - 1 ≤ w.playback.currentParagraphIndex) :
    (handleAudioEnded env w).playback.status = .idle ∧
    (handleAudioEnded env w).preload = emptyPreload ∧
    (handleAudioEnded env w).playback.currentParagraphIndex = 0 ∧
    (∀ (w1 : World) (i : ℤ), w1.playback.autoContinue = false →
      initiatePreload env w1 i = w1) := by
  have hcond : ¬ ({ w with audioLoaded := false } : World).playback.autoContinue = true ∨
      ({ w with audioLoaded := false } : World).playback.totalParagraphs - 1 ≤
        ({ w with audioLoaded := false } : World).playback.currentParagraphIndex := by
    rcases h with h | h
    · exact Or.inl (by simp [h])
    · exact Or.inr h
  refine ⟨?_, ?_, ?_, ?_⟩
  · unfold handleAudioEnded
    rw [if_pos hcond]
    rfl
  · unfold handleAudioEnded
    rw [if_pos hcond]
    rfl
  · unfold handleAudioEnded
    rw [if_pos hcond]
    rfl
  · intro w1 i h1
    unfold initiatePreload
    rw [if_pos (Or.inl (by simp [h1]))]

/-- Witness for C6: audio ends on the last paragraph with auto-continue
on; the run ends idle with the slot cleared, and a world with
auto-continue off is untouched by `initiatePreload`. -/
theorem autoContinueTerminationWitness :
    (handleAudioEnded envAllOk lastParagraphWorld).playback.status = .idle ∧
    (handleAudioEnded envAllOk lastParagraphWorld).preload = emptyPreload :=
  ⟨(autoContinueTermination envAllOk lastParagraphWorld (Or.inr (by decide))).1,
   (autoContinueTermination envAllOk lastParagraphWorld (Or.inr (by decide))).2.1⟩

/-- C7: a preload attempt never changes the playback state and never
broadcasts, whatever happens; and when the attempt proceeds (guards
pass) and its text fetch or synthesis step fails, the slot is simply
discarded. -/
theorem preloadFailureAtomicity (env : Env) (w : World) (i : ℤ) :
    (initiatePreload env w i).playback = w.playback ∧
    (initiatePreload env w i).lastBroadcast = w.lastBroadcast ∧
    ((env.fetchText (i + 1) = none ∨ env.fetchText (i + 1) = some "" ∨
      env.apiKey = none ∨ env.voiceId = none ∨
      (∃ t msg, env.fetchText (i + 1) = some t ∧ env.synth t = .error msg)) →
      w.playback.autoContinue = true → i + 1 < w.playback.totalParagraphs →
      w.preload.paragraphIndex ≠ some (i + 1) → w.tabId ≠ none →
      (initiatePreload env w i).preload = emptyPreload) := by
  refine ⟨initiatePreload_playback env w i, initiatePreload_lastBroadcast env w i, ?_⟩
  intro hfail hauto hlt htag htab
  have hc1 : ¬ (¬ w.playback.autoContinue = true ∨ w.playback.totalParagraphs ≤ i + 1) := by
    simp [hauto, not_le.mpr hlt]
  unfold initiatePreload
  rw [if_neg hc1, if_neg htag, if_neg htab]
  dsimp only
  cases hf : env.fetchText (i + 1) with
  | none => rfl
  | some t =>
    dsimp only
    by_cases ht : t = ""
    · subst ht
      rfl
    · rw [if_neg ht]
      have hrest : env.apiKey = none ∨ env.voiceId = none ∨
          (∃ msg, env.synth t = .error msg) := by
        rcases hfail with h | h | h | h | ⟨t1, msg, h1, h2⟩
        · rw [hf] at h; exact absurd h (by simp)
        · rw [hf] at h
          exact absurd (Option.some.inj h) ht
        · exact Or.inl h
        · exact Or.inr (Or.inl h)
        · rw [hf] at h1
          exact Or.inr (Or.inr ⟨msg, (Option.some.inj h1) ▸ h2⟩)
      unfold preloadAudioRun
      rcases hrest with h | h | ⟨msg, h⟩
      · rw [h]
        cases env.voiceId <;> rfl
      · rw [h]
        cases env.apiKey <;> rfl
      · cases hk : env.apiKey with
        | none => rfl
        | some k =>
          cases hv : env.voiceId with
          | none => rfl
          | some v =>
            rw [h]
            rfl

/-- Witness for C7: a failing text fetch during a proceeding preload
leaves the playback state untouched and the slot empty. -/
theorem preloadFailureAtomicityWitness :
    (initiatePreload envFetchFails playingWorld 0).playback = playingWorld.playback ∧
    (initiatePreload envFetchFails playingWorld 0).preload = emptyPreload :=
  ⟨(preloadFailureAtomicity envFetchFails playingWorld 0).1,
   (preloadFailureAtomicity envFetchFails playingWorld 0).2.2 (Or.inl rfl) rfl
     (by decide) (by decide) (by decide)⟩
/-- On-demand fallback with no tab, a failed fetch, or empty text stops
playback (status idle). -/
theorem requestNext_idle (env : Env) (w : World) (i : ℤ)
    (h : w.tabId = none ∨ env.fetchText i = none ∨ env.fetchText i = some "") :
    (requestNextParagraph env w i).playback.status = .idle := by
  unfold requestNextParagraph
  rcases h with h | h | h
  · rw [h]
    rfl
  · cases htab : w.tabId with
    | none => rfl
    | some tb =>
      dsimp only
      rw [h]
      rfl
  · cases htab : w.tabId with
    | none => rfl
    | some tb =>
      dsimp only
      rw [h]
      rfl

/-- On-demand fallback whose text fetch succeeds but whose synthesis
fails ends with status = error carrying the synthesis message. -/
theorem requestNext_synthError (env : Env) (w : World) (i : ℤ) (tb : ℤ) (t : String)
    (msg : String) (hst : w.playback.status = .loading) (htab : w.tabId = some tb)
    (hfetch : env.fetchText i = some t) (ht : t ≠ "") (htrim : jsTrim t ≠ "")
    (hkey : env.apiKey ≠ none) (hvoice : env.voiceId ≠ none)
    (hsynth : env.synth t = .error msg) :
    (requestNextParagraph env w i).playback.status = .error ∧
    (requestNextParagraph env w i).playback.error = some msg := by
  unfold requestNextParagraph
  rw [htab]
  dsimp only
  rw [hfetch]
  dsimp only
  rw [if_neg ht]
  unfold handlePlay
  rw [hst]
  rw [if_neg (by simp : ¬ (Status.loading = Status.playing))]
  rw [if_neg (by simp : ¬ (Status.loading = Status.paused ∧ w.audioLoaded = true))]
  rw [if_neg hkey, if_neg hvoice, if_neg htrim]
  dsimp only
  rw [hsynth]
  exact ⟨rfl, rfl⟩

/-- C2 counterexample: audio ends mid-document with auto-continue on and
no preload; the on-demand fallback's text fetch succeeds but synthesis
fails, and the orchestrator ends with status = error (through
`handlePlay`'s catch), not idle as claimed. -/
theorem autoContinueFallbackSynthError :
    (handleAudioEnded envSynthFails playingWorld).playback.status = .error := rfl

/-- C2 amended: when audio ends with auto-continue on, a next paragraph
remaining, and an empty preload slot, a failure of the fallback's
text-fetch step (no tab, failed response, or empty text) degrades to
status = idle; but a synthesis failure after a successful text fetch
surfaces as status = error with the synthesis message, exactly as an
explicit play failure would. -/
theorem autoContinueFallbackAmended (env : Env) (w : World)
    (hauto : w.playback.autoContinue = true)
    (hlt : w.playback.currentParagraphIndex < w.playback.totalParagraphs - 1)
    (hmiss : w.preload.paragraphIndex = none) :
    ((w.tabId = none ∨ env.fetchText (w.playback.currentParagraphIndex + 1) = none ∨
      env.fetchText (w.playback.currentParagraphIndex + 1) = some "") →
      (handleAudioEnded env w).playback.status = .idle) ∧
    (∀ (tb : ℤ) (t msg : String), w.tabId = some tb →
      env.fetchText (w.playback.currentParagraphIndex + 1) = some t → t ≠ "" →
      jsTrim t ≠ "" → env.apiKey ≠ none → env.voiceId ≠ none →
      env.synth t = .error msg →
      (handleAudioEnded env w).playback.status = .error ∧
      (handleAudioEnded env w).playback.error = some msg) := by
  have hred : handleAudioEnded env w =
      requestNextParagraph env
        (updatePlaybackState { w with audioLoaded := false }
          (fun p => { p with status := .loading }))
        (w.playback.currentParagraphIndex + 1) := by
    unfold handleAudioEnded
    dsimp only
    rw [if_neg (by simp [hauto, not_le.mpr hlt]),
      if_neg (by simp [hmiss]), if_neg (by simp [hmiss])]
  rw [hred]
  constructor
  · intro hfail
    exact requestNext_idle env _ _ hfail
  · intro tb t msg htab hfetch ht htrim hkey hvoice hsynth
    exact requestNext_synthError env _ _ tb t msg rfl htab hfetch ht htrim hkey hvoice hsynth

/-- Witness for C2 amended: concrete fetch failure ends idle, concrete
synthesis failure ends in error. -/
theorem autoContinueFallbackAmendedWitness :
    (handleAudioEnded envFetchFails playingWorld).playback.status = .idle ∧
    (handleAudioEnded envSynthFails playingWorld).playback.status = .error ∧
    (handleAudioEnded envSynthFails playingWorld).playback.error = some "boom" := by
  refine ⟨(autoContinueFallbackAmended envFetchFails playingWorld rfl (by decide) rfl).1
    (Or.inr (Or.inl rfl)), ?_, ?_⟩
  · exact ((autoContinueFallbackAmended envSynthFails playingWorld rfl (by decide) rfl).2
      1 "next paragraph text" "boom" rfl rfl (by decide) (by decide)
      (by decide) (by decide) rfl).1
  · exact ((autoContinueFallbackAmended envSynthFails playingWorld rfl (by decide) rfl).2
      1 "next paragraph text" "boom" rfl rfl (by decide) (by decide)
      (by decide) (by decide) rfl).2
end ElevenPage
